import Mathlib

/-!
Verification of the metering middleware for a generative-media API
(`revenium-middleware-fal-go`), against its natural-language specification.

The Go sources are shallowly embedded:

* Go `string` values become Lean `String`; `strings.HasPrefix` is modelled
  byte-wise on the character list (`goHasPrefix`), which is faithful for the
  ASCII inputs every claim exercises.
* `float64` values become `ℚ`: the metering code only parses decimal
  literals, copies them and compares them with `0`, so no rounding behaviour
  of the binary format is ever exercised.
* `time.Time` / `time.Duration` become `Int` nanosecond counts.
* Go maps (`map[string]interface{}`) become `String → Option MetaValue`;
  a possibly-`nil` map becomes an `Option` of that.
* goroutine dispatch becomes an explicit list of dispatched task
  descriptors; `defer`/`recover` become an explicit outcome-passing
  semantics (`PanicOr`).
-/

namespace Revenium

/-! ## Basic string operations (models of the Go standard library) -/

/-- Model of Go `strings.HasPrefix(s, p)`: byte-wise prefix test, embedded
as a character-list prefix test. -/
def goHasPrefix (s p : String) : Bool :=
  p.data.isPrefixOf s.data

/-- Model of Go `strings.TrimPrefix(s, p)`. -/
def goTrimPrefix (s p : String) : String :=
  if goHasPrefix s p then ⟨s.data.drop p.data.length⟩ else s

/-- Characters Go `strings.TrimSpace` removes (ASCII whitespace; the inputs
exercised here contain no other space characters). -/
def goIsSpace (c : Char) : Bool :=
  c = ' ' || c = '\t' || c = '\n' || c = '\r' || c = '\x0b' || c = '\x0c'

/-- Model of Go `strings.TrimSpace`. -/
def goTrimSpace (s : String) : String :=
  ⟨(s.data.dropWhile goIsSpace).reverse.dropWhile goIsSpace |>.reverse⟩

/-! ## `normalizeModelName` (src/revenium/metering.go:192-201)

```go
func normalizeModelName(model string) string {
    const falPrefix = "fal-ai/"
    if strings.HasPrefix(model, falPrefix) {
        return model
    }
    Warn(...)
    return falPrefix + model
}
``` -/

def falPrefix : String := "fal-ai/"

/-- Embedding of `normalizeModelName` from src/revenium/metering.go. -/
def normalizeModelName (model : String) : String :=
  if goHasPrefix model falPrefix then model
  else falPrefix ++ model

/-- The canonical form the repository's own unit tests
(`TestNormalizeModelName`, src/revenium/metering_test.go) demand for the
model `flux/dev`: the two-segment `fal_ai/fal-ai/` prefix introduced by
changelog entry 1.0.3. -/
def testExpectedCanonical : String := "fal_ai/fal-ai/flux/dev"

/-- C1: the code does not satisfy its own unit tests. The four input
variants (bare, `fal-ai/`, `fal_ai/fal-ai/`, `fal_ai/`) do not converge:
the implementation prepends only `fal-ai/`, so the bare name maps to
`fal-ai/flux/dev` while the alternate single-prefix input maps to
`fal-ai/fal_ai/flux/dev`, and none of the outputs equals the canonical
string `fal_ai/fal-ai/flux/dev` expected by `TestNormalizeModelName`. -/
theorem c1_normalizeModelName_contradicts_own_tests :
    normalizeModelName "flux/dev" = "fal-ai/flux/dev" ∧
    normalizeModelName "fal-ai/flux/dev" = "fal-ai/flux/dev" ∧
    normalizeModelName "fal_ai/flux/dev" = "fal-ai/fal_ai/flux/dev" ∧
    normalizeModelName "fal_ai/fal-ai/flux/dev" = "fal-ai/fal_ai/fal-ai/flux/dev" ∧
    normalizeModelName "flux/dev" ≠ normalizeModelName "fal_ai/flux/dev" ∧
    normalizeModelName "flux/dev" ≠ testExpectedCanonical ∧
    normalizeModelName "fal_ai/fal-ai/flux/dev" ≠ testExpectedCanonical := by
  refine ⟨by decide, by decide, by decide, by decide, by decide, by decide, by decide⟩

/-! ## Untyped metadata maps (`map[string]interface{}`)

A Go map value is modelled as a total function `String → Option MetaValue`;
a possibly-`nil` map is an `Option` of that (the `nil` check in Go inspects
the map header, which is exactly the `Option` constructor here). -/

/-- A dynamically typed metadata value (`interface{}` as used by the
payload builders: strings, ints, floats, bools, nested maps). -/
inductive MetaValue where
  | str (s : String)
  | int (n : Int)
  | num (q : ℚ)
  | boolean (b : Bool)
  | obj (m : String → Option MetaValue)

/-- The contents of one (non-nil) Go `map[string]interface{}`. -/
def GoMap : Type := String → Option MetaValue

/-- Empty map, as `make(map[string]interface\x7b\x7d)` produces. -/
def emptyGoMap : GoMap := fun _ => none

/-- Model of the Go copy loop `for k, v := range src { dst[k] = v }`:
every key present in `src` overwrites the corresponding `dst` entry. -/
def mapAssignAll (dst src : GoMap) : GoMap :=
  fun k =>
    match src k with
    | some v => some v
    | none => dst k

/-- Lookup in a possibly-`nil` map (a `nil` Go map reads as empty). -/
def mLookup : Option GoMap → String → Option MetaValue
  | none, _ => none
  | some m, k => m k

/-- Embedding of `MergeMetadata` (src/revenium/client.go:536-559):
returns `nil` when both inputs are `nil`, otherwise copies `base` into a
fresh map and then overwrites with `override`. -/
def MergeMetadata : Option GoMap → Option GoMap → Option GoMap
  | none, none => none
  | base, override =>
      some (mapAssignAll
              (mapAssignAll emptyGoMap (base.getD emptyGoMap))
              (override.getD emptyGoMap))

/-- The concrete base map `{a:1, b:2}` from the spec's merge example. -/
def exMergeBase : GoMap := fun k =>
  if k = "a" then some (.int 1) else if k = "b" then some (.int 2) else none

/-- The concrete override map `{b:3, c:4}` from the spec's merge example. -/
def exMergeOverride : GoMap := fun k =>
  if k = "b" then some (.int 3) else if k = "c" then some (.int 4) else none

/-- C7: `MergeMetadata` returns the key-wise union with `override` winning
on conflicts, treats a `nil` input as empty, yields `nil` exactly when both
inputs are `nil`, and on the spec's example maps `{a:1,b:2}` and
`{b:3,c:4}` produces a map reading `{a:1,b:3,c:4}`.  (The "no mutation of
the inputs" part is inherent in this pure embedding: the result is a fresh
value built from `emptyGoMap`.) -/
theorem c7_MergeMetadata_spec :
    (∀ b o, MergeMetadata b o = none ↔ b = none ∧ o = none) ∧
    (∀ b o k, mLookup (MergeMetadata b o) k = (mLookup o k <|> mLookup b k)) ∧
    mLookup (MergeMetadata (some exMergeBase) (some exMergeOverride)) "a"
      = some (.int 1) ∧
    mLookup (MergeMetadata (some exMergeBase) (some exMergeOverride)) "b"
      = some (.int 3) ∧
    mLookup (MergeMetadata (some exMergeBase) (some exMergeOverride)) "c"
      = some (.int 4) ∧
    MergeMetadata none none = none := by
  refine ⟨?_, ?_, rfl, rfl, rfl, rfl⟩
  · rintro (_ | b) (_ | o) <;> simp [MergeMetadata]
  · rintro (_ | b) (_ | o) k
    · rfl
    · simp only [MergeMetadata, mLookup, mapAssignAll, emptyGoMap, Option.getD]
      cases o k <;> rfl
    · simp only [MergeMetadata, mLookup, mapAssignAll, emptyGoMap, Option.getD]
      cases b k <;> rfl
    · simp only [MergeMetadata, mLookup, mapAssignAll, emptyGoMap, Option.getD]
      cases o k <;> cases b k <;> rfl

/-! ## Transaction identifiers (src/revenium/metering.go:141-144)

```go
func generateTransactionID() string {
    return fmt.Sprintf("%d-%d", time.Now().UnixNano(), time.Now().UnixNano()%1000)
}
```

The two wall-clock readings become explicit arguments (nanoseconds since
the Unix epoch, hence non-negative, modelled as `Nat`). -/

/-- Embedding of `generateTransactionID`: the id built from the two
nanosecond clock readings the call observes. -/
def generateTransactionID (n1 n2 : Nat) : String :=
  Nat.repr n1 ++ "-" ++ Nat.repr (n2 % 1000)

/-- Every character `Nat.toDigitsCore` pushes in front of the accumulator
is a decimal digit. -/
lemma toDigitsCore_mem_digit :
    ∀ (fuel n : Nat) (ds : List Char) (c : Char),
      c ∈ Nat.toDigitsCore 10 fuel n ds → c ∈ ds ∨ c.isDigit = true := by
  intro fuel
  induction fuel with
  | zero => intro n ds c hc; exact Or.inl hc
  | succ fuel ih =>
    intro n ds c hc
    simp only [Nat.toDigitsCore] at hc
    have hdigit : (Nat.digitChar (n % 10)).isDigit = true := by
      have h10 : n % 10 < 10 := Nat.mod_lt _ (by omega)
      interval_cases h : n % 10 <;> decide
    by_cases hz : n / 10 = 0
    · rw [if_pos hz] at hc
      rcases List.mem_cons.mp hc with rfl | h
      · exact Or.inr hdigit
      · exact Or.inl h
    · rw [if_neg hz] at hc
      rcases ih (n / 10) (Nat.digitChar (n % 10) :: ds) c hc with h | h
      · rcases List.mem_cons.mp h with rfl | h
        · exact Or.inr hdigit
        · exact Or.inl h
      · exact Or.inr h

/-- The decimal representation of a natural number contains no dash. -/
lemma dash_not_mem_repr (n : Nat) : '-' ∉ (Nat.repr n).data := by
  intro hmem
  have : '-' ∈ Nat.toDigitsCore 10 (n + 1) n [] := by
    simpa [Nat.repr, Nat.toDigits, List.asString] using hmem
  rcases toDigitsCore_mem_digit (n + 1) n [] '-' this with h | h
  · exact absurd h (List.not_mem_nil _)
  · exact absurd h (by decide)

/-- Splitting a character list at a dash is unambiguous when neither
prefix contains a dash. -/
lemma dash_split_unique :
    ∀ (xs ys as bs : List Char), '-' ∉ xs → '-' ∉ ys →
      xs ++ '-' :: as = ys ++ '-' :: bs → xs = ys ∧ as = bs := by
  intro xs
  induction xs with
  | nil =>
    intro ys as bs _ hys heq
    cases ys with
    | nil => simpa using heq
    | cons y ys' =>
      simp only [List.nil_append, List.cons_append, List.cons.injEq] at heq
      exact absurd (heq.1 ▸ List.mem_cons_self y ys') (heq.1 ▸ hys)
  | cons x xs' ih =>
    intro ys as bs hxs hys heq
    cases ys with
    | nil =>
      simp only [List.cons_append, List.nil_append, List.cons.injEq] at heq
      exact absurd (heq.1 ▸ List.mem_cons_self x xs') (heq.1 ▸ hxs)
    | cons y ys' =>
      simp only [List.cons_append, List.cons.injEq] at heq
      obtain ⟨rfl, heq'⟩ := heq
      have := ih ys' as bs (fun h => hxs (List.mem_cons_of_mem _ h))
        (fun h => hys (List.mem_cons_of_mem _ h)) heq'
      exact ⟨by rw [this.1], this.2⟩

/-- One step of reading a decimal digit character into an accumulator. -/
def digitStep (a : Nat) (c : Char) : Nat := 10 * a + (c.toNat - 48)

/-- Appending the decimal digits of `n` to an accumulator `a`. -/
def pushNum (a : Nat) (n : Nat) : Nat :=
  if n / 10 = 0 then 10 * a + n
  else 10 * pushNum a (n / 10) + n % 10
  decreasing_by exact Nat.div_lt_self (Nat.pos_of_ne_zero (by omega)) (by omega)

lemma digitChar_toNat {d : Nat} (h : d < 10) : (Nat.digitChar d).toNat = 48 + d := by
  interval_cases d <;> decide

lemma toDigitsCore_succ (b fuel n : Nat) (ds : List Char) :
    Nat.toDigitsCore b (fuel + 1) n ds
      = if n / b = 0 then Nat.digitChar (n % b) :: ds
        else Nat.toDigitsCore b fuel (n / b) (Nat.digitChar (n % b) :: ds) := rfl

/-- Folding `digitStep` over the output of `Nat.toDigitsCore` reads the
digits of `n` into the accumulator before continuing with `ds`. -/
lemma toDigitsCore_foldl :
    ∀ (fuel n : Nat) (ds : List Char) (a : Nat), n < 10 ^ (fuel + 1) →
      List.foldl digitStep a (Nat.toDigitsCore 10 (fuel + 1) n ds)
        = List.foldl digitStep (pushNum a n) ds := by
  intro fuel
  induction fuel with
  | zero =>
    intro n ds a hn
    have hlt : n < 10 := by simpa using hn
    have hz : n / 10 = 0 := Nat.div_eq_of_lt hlt
    have hmod : n % 10 = n := Nat.mod_eq_of_lt hlt
    rw [toDigitsCore_succ, if_pos hz, List.foldl_cons, pushNum.eq_def, if_pos hz]
    congr 1
    simp only [digitStep, hmod, digitChar_toNat hlt]
    omega
  | succ fuel ih =>
    intro n ds a hn
    by_cases hz : n / 10 = 0
    · have hlt : n < 10 := by omega
      have hmod : n % 10 = n := Nat.mod_eq_of_lt hlt
      rw [toDigitsCore_succ, if_pos hz, List.foldl_cons, pushNum.eq_def, if_pos hz]
      congr 1
      simp only [digitStep, hmod, digitChar_toNat hlt]
      omega
    · rw [toDigitsCore_succ, if_neg hz]
      have hdivlt : n / 10 < 10 ^ (fuel + 1) := by
        apply Nat.div_lt_of_lt_mul
        calc n < 10 ^ (fuel + 1 + 1) := hn
          _ = 10 * 10 ^ (fuel + 1) := by ring
      rw [ih (n / 10) (Nat.digitChar (n % 10) :: ds) a hdivlt,
        List.foldl_cons]
      conv_rhs => rw [pushNum.eq_def]
      rw [if_neg hz]
      congr 1
      simp only [digitStep, digitChar_toNat (Nat.mod_lt n (by omega) : n % 10 < 10)]
      omega

lemma pushNum_zero : ∀ n : Nat, pushNum 0 n = n := by
  intro n
  induction n using Nat.strong_induction_on with
  | _ n ih =>
    rw [pushNum]
    by_cases hz : n / 10 = 0
    · simp [hz]
    · rw [if_neg hz, ih (n / 10) (Nat.div_lt_self (Nat.pos_of_ne_zero (by omega)) (by omega))]
      omega

/-- Reading the decimal representation back yields the number. -/
lemma foldl_repr (n : Nat) :
    List.foldl digitStep 0 (Nat.repr n).data = n := by
  have hdata : (Nat.repr n).data = Nat.toDigitsCore 10 (n + 1) n [] := by
    simp [Nat.repr, Nat.toDigits, List.asString]
  have hlt : n < 10 ^ (n + 1) := by
    calc n < 2 ^ n := Nat.lt_two_pow n
      _ ≤ 10 ^ n := Nat.pow_le_pow_left (by omega) n
      _ ≤ 10 ^ (n + 1) := Nat.pow_le_pow_right (by omega) (Nat.le_succ n)
  rw [hdata, toDigitsCore_foldl n n [] 0 hlt]
  simpa using pushNum_zero n

/-- Injectivity of `Nat.repr` (stated on the underlying character lists). -/
lemma nat_repr_injective {n m : Nat}
    (h : (Nat.repr n).data = (Nat.repr m).data) : n = m := by
  calc n = List.foldl digitStep 0 (Nat.repr n).data := (foldl_repr n).symm
    _ = List.foldl digitStep 0 (Nat.repr m).data := by rw [h]
    _ = m := foldl_repr m

/-- C9 (amended): transaction ids generated from distinct first clock
readings are distinct — the id determines the nanosecond timestamp of the
call that produced it. -/
theorem c9_generateTransactionID_injective
    (n1 n2 m1 m2 : Nat) (h : n1 ≠ m1) :
    generateTransactionID n1 n2 ≠ generateTransactionID m1 m2 := by
  intro heq
  apply h
  have hdata : (Nat.repr n1).data ++ '-' :: (Nat.repr (n2 % 1000)).data
      = (Nat.repr m1).data ++ '-' :: (Nat.repr (m2 % 1000)).data := by
    have := congrArg String.data heq
    simpa [generateTransactionID, String.data_append] using this
  have hsplit := dash_split_unique _ _ _ _ (dash_not_mem_repr n1)
    (dash_not_mem_repr m1) hdata
  exact nat_repr_injective hsplit.1

/-- C9 witness: two calls observing clock readings 1 and 2 nanoseconds
get distinct transaction ids. -/
theorem c9_generateTransactionID_injective_witness :
    (1 : Nat) ≠ 2 ∧ generateTransactionID 1 0 ≠ generateTransactionID 2 0 :=
  ⟨by decide, c9_generateTransactionID_injective 1 0 2 0 (by decide)⟩

/-! ## Decimal parsing (model of `strconv.ParseFloat`)

`buildVideoMeteringPayload` parses the requested-duration string with
`strconv.ParseFloat(trimmed, 64)`.  The model covers the plain decimal
forms (optional sign, integer digits, optional fraction) that duration
strings take; scientific notation, hex floats and infinities are outside
every input the spec and claims exercise.  Values are exact rationals:
the code only parses, copies and compares against zero, so the binary
rounding of `float64` is never observable in the claims. -/

/-- Value of a run of decimal digit characters (empty run ↦ 0). -/
def decDigitsVal (cs : List Char) : Nat :=
  cs.foldl (fun a c => 10 * a + (c.toNat - 48)) 0

/-- Model of `strconv.ParseFloat` on plain decimal literals. -/
def goParseFloat (s : String) : Option ℚ :=
  let step : List Char → Option ℚ := fun cs =>
    let intPart := cs.takeWhile Char.isDigit
    let rest := cs.dropWhile Char.isDigit
    match rest with
    | [] =>
        if intPart.isEmpty then none
        else some ((decDigitsVal intPart : ℚ))
    | '.' :: frac =>
        if frac.all Char.isDigit && !(intPart.isEmpty && frac.isEmpty) then
          some ((decDigitsVal intPart : ℚ)
            + (decDigitsVal frac : ℚ) / ((10 : ℚ) ^ frac.length))
        else none
    | _ => none
  match s.data with
  | '-' :: cs => (step cs).map (fun q => -q)
  | '+' :: cs => step cs
  | cs => step cs

/-! ## Prompt capture formatting (src/revenium/metering.go:146-183)

A Go string is a byte string, and `len(prompt)` / `prompt[:50000]` in this
function measure and slice BYTES.  The prompt therefore enters this corner
of the embedding as its UTF-8 byte sequence (`utf8Bytes`), and the
produced `inputMessages` value is likewise a byte string.  A Lean `String`
maps to a valid-UTF-8 Go string; Go strings holding invalid UTF-8 are
outside the embedding, as everywhere else in this file — but the byte
slice at position 50,000 may cut a multi-byte character in half, and the
serializer below handles the resulting invalid bytes exactly as Go
does. -/

/-- Constant `MaxPromptLength` from src/revenium/metering.go. -/
def MaxPromptLength : Nat := 50000

/-- Lower-case hexadecimal digit, as `encoding/json` uses in `\u00XX`
escapes. -/
def hexDigitChar (n : Nat) : Char :=
  if n < 10 then Char.ofNat (48 + n) else Char.ofNat (87 + n)

/-- Escaping of one character by Go `encoding/json` (default HTML-escaping
encoder): quote, backslash, the named control escapes, `<`, `>`, `&`, and
`\u00XX` for the remaining control characters.  Used for the output-URL
array, whose content is ASCII; on ASCII it agrees byte-for-byte with the
byte-level encoder `goJSONEscapeBytes` below. -/
def goJSONEscapeChar (c : Char) : String :=
  if c = '"' then "\\\""
  else if c = '\\' then "\\\\"
  else if c = '\n' then "\\n"
  else if c = '\r' then "\\r"
  else if c = '\t' then "\\t"
  else if c = '<' then "\\u003c"
  else if c = '>' then "\\u003e"
  else if c = '&' then "\\u0026"
  else if c.toNat < 32 then
    "\\u00" ++ String.singleton (hexDigitChar (c.toNat / 16))
      ++ String.singleton (hexDigitChar (c.toNat % 16))
  else String.singleton c

/-- String-body escaping by Go `encoding/json` (character level, for the
ASCII output-URL serialization). -/
def goJSONEscape (s : String) : String :=
  s.data.foldl (fun acc c => acc ++ goJSONEscapeChar c) ""

/-- Model of `json.Marshal` of a `[]string` of output URLs. -/
def jsonMarshalStringList (l : List String) : String :=
  "[" ++ String.intercalate ","
    (l.map (fun s => "\"" ++ goJSONEscape s ++ "\"")) ++ "]"

/-- UTF-8 encoding of one scalar value, the bytes a Go string stores for
this character. -/
def utf8Encode (c : Char) : List Nat :=
  let v := c.toNat
  if v < 0x80 then [v]
  else if v < 0x800 then [0xC0 + v / 0x40, 0x80 + v % 0x40]
  else if v < 0x10000 then
    [0xE0 + v / 0x1000, 0x80 + (v / 0x40) % 0x40, 0x80 + v % 0x40]
  else
    [0xF0 + v / 0x40000, 0x80 + (v / 0x1000) % 0x40,
     0x80 + (v / 0x40) % 0x40, 0x80 + v % 0x40]

/-- The byte sequence of the Go string holding this text: what Go `len`
and slicing operate on. -/
def utf8Bytes (s : String) : List Nat :=
  (s.data.map utf8Encode).flatten

/-- Lower-case hexadecimal digit as a byte. -/
def hexDigitByte (n : Nat) : Nat :=
  if n < 10 then 48 + n else 87 + n

/-- Bytes of the `\u00XX` escape Go writes for a control byte and for the
HTML-escaped characters `<`, `>`, `&`. -/
def controlEscapeBytes (b : Nat) : List Nat :=
  [0x5C, 0x75, 0x30, 0x30, hexDigitByte (b / 16), hexDigitByte (b % 16)]

/-- Bytes of the six-character escape (backslash, u, f, f, f, d) Go
writes for each invalid UTF-8 byte. -/
def fffdEscapeBytes : List Nat := [0x5C, 0x75, 0x66, 0x66, 0x66, 0x64]

/-- Bytes of the escape Go writes for U+2028 (line separator). -/
def u2028EscapeBytes : List Nat := [0x5C, 0x75, 0x32, 0x30, 0x32, 0x38]

/-- Bytes of the escape Go writes for U+2029 (paragraph separator). -/
def u2029EscapeBytes : List Nat := [0x5C, 0x75, 0x32, 0x30, 0x32, 0x39]

/-- UTF-8 continuation byte test. -/
def isContByte (b : Nat) : Bool :=
  decide (0x80 ≤ b) && decide (b ≤ 0xBF)

/-- String-body escaping by Go `encoding/json` at byte level: the ASCII
escapes (quote, backslash, `\n`, `\r`, `\t`, `\u00XX` controls, the HTML
escapes `<`, `>`, `&`), the U+2028/U+2029 separators, pass-through of
other valid multi-byte sequences, and — exactly as Go's rune decoder does
— one replacement escape per invalid byte, consuming a single byte each
(this is what a character cut in half by the byte slice becomes).
Overlong and surrogate encodings cannot occur in byte strings that are
UTF-8 encodings of scalar sequences or their prefixes, so they are not
detected. -/
def goJSONEscapeBytesCore : Nat → List Nat → List Nat
  | 0, _ => []
  | _ + 1, [] => []
  | fuel + 1, b :: bs =>
    if b = 0x22 then 0x5C :: 0x22 :: goJSONEscapeBytesCore fuel bs
    else if b = 0x5C then 0x5C :: 0x5C :: goJSONEscapeBytesCore fuel bs
    else if b = 0x0A then 0x5C :: 0x6E :: goJSONEscapeBytesCore fuel bs
    else if b = 0x0D then 0x5C :: 0x72 :: goJSONEscapeBytesCore fuel bs
    else if b = 0x09 then 0x5C :: 0x74 :: goJSONEscapeBytesCore fuel bs
    else if b = 0x3C ∨ b = 0x3E ∨ b = 0x26 ∨ b < 0x20 then
      controlEscapeBytes b ++ goJSONEscapeBytesCore fuel bs
    else if b < 0x80 then b :: goJSONEscapeBytesCore fuel bs
    else if 0xC2 ≤ b ∧ b ≤ 0xDF then
      match bs with
      | b1 :: bs' =>
        if isContByte b1 then b :: b1 :: goJSONEscapeBytesCore fuel bs'
        else fffdEscapeBytes ++ goJSONEscapeBytesCore fuel (b1 :: bs')
      | [] => fffdEscapeBytes
    else if 0xE0 ≤ b ∧ b ≤ 0xEF then
      match bs with
      | b1 :: b2 :: bs' =>
        if isContByte b1 && isContByte b2 then
          if b = 0xE2 && b1 = 0x80 && b2 = 0xA8 then
            u2028EscapeBytes ++ goJSONEscapeBytesCore fuel bs'
          else if b = 0xE2 && b1 = 0x80 && b2 = 0xA9 then
            u2029EscapeBytes ++ goJSONEscapeBytesCore fuel bs'
          else b :: b1 :: b2 :: goJSONEscapeBytesCore fuel bs'
        else fffdEscapeBytes ++ goJSONEscapeBytesCore fuel (b1 :: b2 :: bs')
      | bs1 => fffdEscapeBytes ++ goJSONEscapeBytesCore fuel bs1
    else if 0xF0 ≤ b ∧ b ≤ 0xF4 then
      match bs with
      | b1 :: b2 :: b3 :: bs' =>
        if isContByte b1 && isContByte b2 && isContByte b3 then
          b :: b1 :: b2 :: b3 :: goJSONEscapeBytesCore fuel bs'
        else fffdEscapeBytes ++ goJSONEscapeBytesCore fuel (b1 :: b2 :: b3 :: bs')
      | bs1 => fffdEscapeBytes ++ goJSONEscapeBytesCore fuel bs1
    else fffdEscapeBytes ++ goJSONEscapeBytesCore fuel bs

/-- Byte-level escaping, entered with enough fuel (one unit per input
byte, each step consuming at least one byte, as with core's
`Nat.toDigitsCore`). -/
def goJSONEscapeBytes (l : List Nat) : List Nat :=
  goJSONEscapeBytesCore l.length l

/-- Bytes of the `...[TRUNCATED]` marker. -/
def truncationMarkerBytes : List Nat := utf8Bytes "...[TRUNCATED]"

/-- Model of `json.Marshal([]map[string]string{{"role": "user", "content":
prompt}})` on the content's bytes.  Go serializes map keys in sorted
order, so `content` precedes `role`. -/
def jsonMarshalMessagesBytes (content : List Nat) : List Nat :=
  utf8Bytes "[\x7b\"content\":\"" ++ goJSONEscapeBytes content
    ++ utf8Bytes "\",\"role\":\"user\"\x7d]"

/-- Embedding of `formatPromptAsInputMessages`
(src/revenium/metering.go:161-183): `len(prompt)` and `prompt[:50000]`
act on the prompt's BYTES; the returned `inputMessages` is the serialized
byte string.  `json.Marshal` of a `[]map[string]string` cannot fail, so
the error branch that returns `""` is unreachable and not modelled. -/
def formatPromptAsInputMessages (prompt : String) : List Nat × Bool :=
  if prompt = "" then ([], false)
  else
    let bs := utf8Bytes prompt
    let cut : List Nat × Bool :=
      if bs.length > MaxPromptLength then
        (bs.take MaxPromptLength ++ truncationMarkerBytes, true)
      else (bs, false)
    (jsonMarshalMessagesBytes cut.1, cut.2)

/-- C6 counterexample to the claim as stated: a prompt of exactly 50,000
characters, each of them the two-byte character `é`, occupies 100,000
bytes, so the code truncates it and sets `promptsTruncated = true` —
where the claim requires it to be serialized unmodified with the flag
`false`.  Go's `len`/slicing count bytes, not characters. -/
lemma formatPrompt_flag_of_gt (prompt : String) (hne : prompt ≠ "")
    (hgt : (utf8Bytes prompt).length > MaxPromptLength) :
    (formatPromptAsInputMessages prompt).2 = true := by
  simp [formatPromptAsInputMessages, hne, hgt]

theorem c6_formatPrompt_truncation_counterexample :
    (⟨List.replicate 50000 'é'⟩ : String).length = 50000 ∧
    (formatPromptAsInputMessages ⟨List.replicate 50000 'é'⟩).2 = true := by
  have hbytes : (utf8Bytes ⟨List.replicate 50000 'é'⟩).length = 100000 := by
    show ((List.replicate 50000 'é').map utf8Encode).flatten.length = 100000
    rw [List.map_replicate, show utf8Encode 'é' = [0xC3, 0xA9] from rfl,
      List.length_flatten, List.map_replicate,
      show ([0xC3, 0xA9] : List Nat).length = 2 from rfl,
      List.sum_replicate, smul_eq_mul]
  have hne : (⟨List.replicate 50000 'é'⟩ : String) ≠ "" := by
    intro h
    have hl := congrArg String.length h
    rw [show (⟨List.replicate 50000 'é'⟩ : String).length
        = (List.replicate 50000 'é').length from rfl,
      List.length_replicate] at hl
    exact absurd hl (by decide)
  have hgt : (utf8Bytes (⟨List.replicate 50000 'é'⟩ : String)).length
      > MaxPromptLength := by
    rw [hbytes]
    norm_num [MaxPromptLength]
  constructor
  · show (List.replicate 50000 'é').length = 50000
    rw [List.length_replicate]
  · exact formatPrompt_flag_of_gt _ hne hgt

/-- C6 (amended, bytes in place of characters): a prompt of exactly
`MaxPromptLength` BYTES is serialized unmodified with the truncated flag
`false`; a prompt of 50,001 or more bytes is serialized as its first
`MaxPromptLength` bytes followed by the `...[TRUNCATED]` marker, with the
flag `true`; in both cases the output is the one-element role/content
JSON structure with role `"user"` (visible in
`jsonMarshalMessagesBytes`). -/
theorem c6_formatPrompt_truncation (prompt : String) :
    ((utf8Bytes prompt).length = MaxPromptLength →
      formatPromptAsInputMessages prompt
        = (jsonMarshalMessagesBytes (utf8Bytes prompt), false)) ∧
    ((utf8Bytes prompt).length > MaxPromptLength →
      formatPromptAsInputMessages prompt
        = (jsonMarshalMessagesBytes
            ((utf8Bytes prompt).take MaxPromptLength ++ truncationMarkerBytes),
          true)) := by
  constructor
  · intro hlen
    have hne : prompt ≠ "" := by
      intro h
      rw [h] at hlen
      simp [utf8Bytes, MaxPromptLength] at hlen
    have hnot : ¬ (utf8Bytes prompt).length > MaxPromptLength := by omega
    simp [formatPromptAsInputMessages, hne, hnot]
  · intro hlen
    have hne : prompt ≠ "" := by
      intro h
      rw [h] at hlen
      simp [utf8Bytes, MaxPromptLength] at hlen
    simp [formatPromptAsInputMessages, hne, hlen]

/-- C6 witness: concrete one-byte-character prompts of 50,000 and 50,001
bytes. -/
theorem c6_formatPrompt_truncation_witness :
    ((utf8Bytes ⟨List.replicate 50000 'a'⟩).length = MaxPromptLength ∧
      formatPromptAsInputMessages ⟨List.replicate 50000 'a'⟩
        = (jsonMarshalMessagesBytes (utf8Bytes ⟨List.replicate 50000 'a'⟩),
          false)) ∧
    ((utf8Bytes ⟨List.replicate 50001 'a'⟩).length > MaxPromptLength ∧
      formatPromptAsInputMessages ⟨List.replicate 50001 'a'⟩
        = (jsonMarshalMessagesBytes
            ((utf8Bytes ⟨List.replicate 50001 'a'⟩).take MaxPromptLength
              ++ truncationMarkerBytes), true)) := by
  have h1 : (utf8Bytes ⟨List.replicate 50000 'a'⟩).length = MaxPromptLength := by
    show ((List.replicate 50000 'a').map utf8Encode).flatten.length
      = MaxPromptLength
    rw [List.map_replicate, show utf8Encode 'a' = [0x61] from rfl,
      List.length_flatten, List.map_replicate,
      show ([0x61] : List Nat).length = 1 from rfl,
      List.sum_replicate, smul_eq_mul, MaxPromptLength]
  have h2 : (utf8Bytes ⟨List.replicate 50001 'a'⟩).length > MaxPromptLength := by
    show ((List.replicate 50001 'a').map utf8Encode).flatten.length
      > MaxPromptLength
    rw [List.map_replicate, show utf8Encode 'a' = [0x61] from rfl,
      List.length_flatten, List.map_replicate,
      show ([0x61] : List Nat).length = 1 from rfl,
      List.sum_replicate, smul_eq_mul]
    decide
  exact ⟨⟨h1, (c6_formatPrompt_truncation _).1 h1⟩,
    ⟨h2, (c6_formatPrompt_truncation _).2 h2⟩⟩

/-! ## Response and payload types (src/revenium/types.go)

`float64` fields become `ℚ`, `time.Time`/`time.Duration` become `Int`
nanosecond counts (see the header comment).  The prompt-capture fields
(`inputMessages`, `outputResponse`, `promptsTruncated`) are written by
src/revenium/metering.go; the copy of `types.go` in the sources predates
them, so they are added here exactly as that code uses them. -/

/-- Struct `FalImage` (src/revenium/types.go). -/
structure FalImage where
  url : String := ""
  width : Int := 0
  height : Int := 0
  contentType : String := ""

/-- Struct `FalImageResponse` (src/revenium/types.go). -/
structure FalImageResponse where
  images : List FalImage := []
  seed : Int := 0
  timeTaken : ℚ := 0
  hasNSFWContent : List Bool := []
  prompt : String := ""

/-- Struct `FalVideo` (src/revenium/types.go). -/
structure FalVideo where
  url : String := ""
  duration : ℚ := 0
  width : Int := 0
  height : Int := 0
  contentType : String := ""

/-- Struct `FalVideoResponse` (src/revenium/types.go). -/
structure FalVideoResponse where
  video : FalVideo := {}
  prompt : String := ""
  timeTaken : ℚ := 0

/-- Value of `string(OperationTypeImage)` from src/revenium/types.go. -/
def operationTypeImage : String := "IMAGE"

/-- Value of `string(OperationTypeVideo)` from src/revenium/types.go. -/
def operationTypeVideo : String := "VIDEO"

/-- Struct `MeteringPayload` (src/revenium/types.go plus the prompt-capture
fields used by src/revenium/metering.go).  Zero values mirror Go's. -/
structure MeteringPayload where
  stopReason : String := ""
  costType : String := ""
  operationType : String := ""
  model : String := ""
  provider : String := ""
  modelSource : String := ""
  transactionID : String := ""
  requestTime : Int := 0
  responseTime : Int := 0
  requestDuration : Int := 0
  middlewareSource : String := ""
  actualImageCount : Option Int := none
  requestedImageCount : Option Int := none
  durationSeconds : Option ℚ := none
  requestedDurationSeconds : Option ℚ := none
  attributes : Option GoMap := none
  organizationID : String := ""
  productID : String := ""
  taskType : String := ""
  agent : String := ""
  subscriptionID : String := ""
  traceID : String := ""
  parentTransactionID : String := ""
  traceType : String := ""
  traceName : String := ""
  environment : String := ""
  region : String := ""
  retryNumber : Option Int := none
  credentialAlias : String := ""
  subscriber : Option GoMap := none
  taskID : String := ""
  videoJobID : String := ""
  audioJobID : String := ""
  responseQualityScore : Option ℚ := none
  totalCost : Option ℚ := none
  inputMessages : List Nat := []
  outputResponse : String := ""
  promptsTruncated : Bool := false

/-- Function `GetMiddlewareSource` lives in a version file missing from the
sources; its concrete value is immaterial to every claim.  Modelled from
the spec: a fixed middleware-source tag. -/
def GetMiddlewareSource : String := "fal-go"

/-- Go `time.Duration.Milliseconds()`: integer division truncating toward
zero. -/
def durationMilliseconds (d : Int) : Int := d.tdiv 1000000

/-! ## Payload builders (src/revenium/metering.go:204-474)

The Go metadata-projection block is a straight-line sequence of
type-checked optional reads, each writing a distinct payload field; it is
embedded as one simultaneous record update (identical semantics, since no
step reads a field another step writes). -/

/-- The metadata-projection block shared verbatim by both builders
(src/revenium/metering.go:244-300 and 399-455).  A `nil` metadata map
skips the whole block; a wrongly typed value skips its field. -/
def applyMetadataFields (metadata : Option GoMap) (p : MeteringPayload) :
    MeteringPayload :=
  match metadata with
  | none => p
  | some md =>
    { p with
      organizationID :=
        match md "organizationId" with
        | some (.str v) => v | _ => p.organizationID
      productID :=
        match md "productId" with
        | some (.str v) => v | _ => p.productID
      taskType :=
        match md "taskType" with
        | some (.str v) => v | _ => p.taskType
      agent :=
        match md "agent" with
        | some (.str v) => v | _ => p.agent
      subscriptionID :=
        match md "subscriptionId" with
        | some (.str v) => v | _ => p.subscriptionID
      traceID :=
        match md "traceId" with
        | some (.str v) => v | _ => p.traceID
      parentTransactionID :=
        match md "parentTransactionId" with
        | some (.str v) => v | _ => p.parentTransactionID
      traceType :=
        match md "traceType" with
        | some (.str v) => v | _ => p.traceType
      traceName :=
        match md "traceName" with
        | some (.str v) => v | _ => p.traceName
      environment :=
        match md "environment" with
        | some (.str v) => v | _ => p.environment
      region :=
        match md "region" with
        | some (.str v) => v | _ => p.region
      retryNumber :=
        match md "retryNumber" with
        | some (.int v) => some v | _ => p.retryNumber
      credentialAlias :=
        match md "credentialAlias" with
        | some (.str v) => v | _ => p.credentialAlias
      subscriber :=
        match md "subscriber" with
        | some (.obj m) => some m | _ => p.subscriber
      taskID :=
        match md "taskId" with
        | some (.str v) => v | _ => p.taskID
      videoJobID :=
        match md "videoJobId" with
        | some (.str v) => v | _ => p.videoJobID
      audioJobID :=
        match md "audioJobId" with
        | some (.str v) => v | _ => p.audioJobID
      responseQualityScore :=
        match md "responseQualityScore" with
        | some (.num v) => some v | _ => p.responseQualityScore }

/-- Attributes map `{width, height}` of the first generated image
(src/revenium/metering.go:235-240). -/
def imageAttrs (img : FalImage) : GoMap := fun k =>
  if k = "width" then some (.int img.width)
  else if k = "height" then some (.int img.height)
  else none

/-- Prompt-capture block of the image builder
(src/revenium/metering.go:302-319). -/
def applyImagePromptCapture (capturePrompts : Bool) (prompt : String)
    (outputURLs : List String) (p : MeteringPayload) : MeteringPayload :=
  if capturePrompts && !(prompt == "") then
    let r := formatPromptAsInputMessages prompt
    { p with
      inputMessages := if r.1 ≠ [] then r.1 else p.inputMessages
      promptsTruncated := if r.2 then true else p.promptsTruncated
      outputResponse :=
        if outputURLs ≠ [] then jsonMarshalStringList outputURLs
        else p.outputResponse }
  else p

/-- Embedding of `buildImageMeteringPayload`
(src/revenium/metering.go:204-322).  The two wall-clock readings consumed
by `generateTransactionID` become the explicit arguments `n1`, `n2`. -/
def buildImageMeteringPayload (model : String)
    (imageResp : Option FalImageResponse) (metadata : Option GoMap)
    (duration requestTime : Int) (capturePrompts : Bool) (prompt : String)
    (outputURLs : List String) (n1 n2 : Nat) : MeteringPayload :=
  let payload : MeteringPayload :=
    { stopReason := "END"
      costType := "AI"
      operationType := operationTypeImage
      model := normalizeModelName model
      provider := "fal"
      modelSource := "FAL"
      transactionID := generateTransactionID n1 n2
      requestTime := requestTime
      responseTime := requestTime + duration
      requestDuration := durationMilliseconds duration
      middlewareSource := GetMiddlewareSource }
  let payload :=
    match imageResp with
    | none => payload
    | some resp =>
      { payload with
        actualImageCount := some (resp.images.length : Int)
        requestedImageCount := some (resp.images.length : Int)
        attributes :=
          match resp.images with
          | [] => payload.attributes
          | img :: _ => some (imageAttrs img) }
  applyImagePromptCapture capturePrompts prompt outputURLs
    (applyMetadataFields metadata payload)

/-- The requested-duration parse of the video builder
(src/revenium/metering.go:352-361): `0` when the string is empty or does
not parse. -/
def videoReqDurSeconds (requestedDuration : String) : ℚ :=
  if requestedDuration ≠ "" then
    match goParseFloat (goTrimSpace requestedDuration) with
    | some parsed => parsed
    | none => 0
  else 0

/-- The duration billing fields of the video builder
(src/revenium/metering.go:363-382), as the pair
`(durationSeconds, requestedDurationSeconds)`. -/
def videoDurationFields (videoResp : Option FalVideoResponse)
    (reqDurSeconds : ℚ) : Option ℚ × Option ℚ :=
  let rqs : Option ℚ :=
    if reqDurSeconds > 0 then some reqDurSeconds else none
  match videoResp with
  | some resp =>
    if resp.video.duration > 0 then
      (some resp.video.duration,
        if rqs = none then some resp.video.duration else rqs)
    else if reqDurSeconds > 0 then (some reqDurSeconds, rqs)
    else (none, rqs)
  | none =>
    if reqDurSeconds > 0 then (some reqDurSeconds, rqs) else (none, rqs)

/-- Attributes map of the video builder (src/revenium/metering.go:384-396):
width/height, each only when positive. -/
def videoAttrs (v : FalVideo) : GoMap := fun k =>
  if k = "width" && decide (v.width > 0) then some (.int v.width)
  else if k = "height" && decide (v.height > 0) then some (.int v.height)
  else none

/-- Prompt-capture block of the video builder
(src/revenium/metering.go:457-471): the output response is the single
video URL, unserialized. -/
def applyVideoPromptCapture (capturePrompts : Bool) (prompt : String)
    (outputURL : String) (p : MeteringPayload) : MeteringPayload :=
  if capturePrompts && !(prompt == "") then
    let r := formatPromptAsInputMessages prompt
    { p with
      inputMessages := if r.1 ≠ [] then r.1 else p.inputMessages
      promptsTruncated := if r.2 then true else p.promptsTruncated
      outputResponse :=
        if outputURL ≠ "" then outputURL else p.outputResponse }
  else p

/-- Embedding of `buildVideoMeteringPayload`
(src/revenium/metering.go:325-474). -/
def buildVideoMeteringPayload (model : String)
    (videoResp : Option FalVideoResponse) (metadata : Option GoMap)
    (duration requestTime : Int) (requestedDuration : String)
    (capturePrompts : Bool) (prompt : String) (outputURL : String)
    (n1 n2 : Nat) : MeteringPayload :=
  let payload : MeteringPayload :=
    { stopReason := "END"
      costType := "AI"
      operationType := operationTypeVideo
      model := normalizeModelName model
      provider := "fal"
      modelSource := "FAL"
      transactionID := generateTransactionID n1 n2
      requestTime := requestTime
      responseTime := requestTime + duration
      requestDuration := durationMilliseconds duration
      middlewareSource := GetMiddlewareSource }
  let reqDurSeconds := videoReqDurSeconds requestedDuration
  let durs := videoDurationFields videoResp reqDurSeconds
  let payload :=
    { payload with
      durationSeconds := durs.1
      requestedDurationSeconds := durs.2 }
  let payload :=
    match videoResp with
    | some resp =>
      if resp.video.width > 0 || resp.video.height > 0 then
        { payload with attributes := some (videoAttrs resp.video) }
      else payload
    | none => payload
  applyVideoPromptCapture capturePrompts prompt outputURL
    (applyMetadataFields metadata payload)

/-! ## Error classifier

Modelled from the spec: the error constructors and predicates live in an
`errors.go` file missing from the sources; §4.5 of the spec fixes five
kinds (configuration / network / provider / validation / metering), each
with a constructor wrapping an optional cause and a predicate that
classifies wrapped errors, not just top-level ones. -/

/-- The five error kinds of §4.5. -/
inductive ErrKind where
  | config | network | provider | validation | metering
deriving DecidableEq

/-- A Go `error` value as the metering pipeline sees it: either one of the
middleware's classified errors (kind, message, optional wrapped cause) or
an unclassified plain error. -/
inductive GoError where
  | rev (kind : ErrKind) (msg : String) (cause : Option GoError)
  | plain (msg : String)

/-- Modelled from the spec: `NewValidationError`. -/
def NewValidationError (msg : String) (cause : Option GoError) : GoError :=
  .rev .validation msg cause

/-- Modelled from the spec: `NewMeteringError`. -/
def NewMeteringError (msg : String) (cause : Option GoError) : GoError :=
  .rev .metering msg cause

/-- Modelled from the spec: `NewNetworkError`. -/
def NewNetworkError (msg : String) (cause : Option GoError) : GoError :=
  .rev .network msg cause

/-- Modelled from the spec: `NewConfigError`. -/
def NewConfigError (msg : String) (cause : Option GoError) : GoError :=
  .rev .config msg cause

/-- Modelled from the spec: `IsValidationError`, classifying wrapped
errors along the cause chain. -/
def IsValidationError : GoError → Bool
  | .rev .validation _ _ => true
  | .rev _ _ (some c) => IsValidationError c
  | .rev _ _ none => false
  | .plain _ => false

/-! ## Delivery client (src/revenium/metering.go:57-139)

One delivery attempt is determined by what the transport produces: either
a transport-level failure from `meteringHTTPClient.Do` or an HTTP status
code with a response body.  (`json.Marshal` of a `MeteringPayload` cannot
fail, so that error branch is unreachable and not modelled.)  The outcome
of attempt `i` is given by an explicit environment `outcomes i`. -/

/-- What the HTTP transport produces for one attempt. -/
inductive AttemptOutcome where
  | transportFailure (msg : String)
  | status (code : Nat) (body : String)

/-- Embedding of `sendMeteringRequest` (src/revenium/metering.go:90-139):
classification of a single attempt. -/
def sendMeteringRequest (o : AttemptOutcome) : Except GoError Unit :=
  match o with
  | .transportFailure msg =>
      .error (NewNetworkError "metering request failed" (some (.plain msg)))
  | .status code body =>
      if code < 200 ∨ 300 ≤ code then
        if 400 ≤ code ∧ code < 500 then
          .error (NewValidationError
            ("metering API returned " ++ Nat.repr code ++ ": " ++ body) none)
        else
          .error (NewMeteringError ("metering API error: " ++ Nat.repr code)
            (some (.plain ("status " ++ Nat.repr code ++ ": " ++ body))))
      else .ok ()

/-- Observable trace of one `sendMetering` call: its result, how many
attempts it made, and the sleeps (in milliseconds) it performed. -/
structure SendTrace where
  result : Except GoError Unit
  attempts : Nat
  sleepsMs : List Nat

/-- The retry loop of `sendMetering` (src/revenium/metering.go:57-87),
with the remaining attempt budget made structural. -/
def sendMeteringLoop (outcomes : Nat → AttemptOutcome) :
    Nat → Nat → Option GoError → List Nat → Nat → SendTrace
  | attempt, _, lastErr, sleeps, 0 =>
      { result := .error
          (NewMeteringError "metering failed after 3 retries" lastErr)
        attempts := attempt
        sleepsMs := sleeps }
  | attempt, backoff, _, sleeps, remaining + 1 =>
      let sleeps' := if attempt > 0 then sleeps ++ [backoff] else sleeps
      let backoff' := if attempt > 0 then backoff * 2 else backoff
      match sendMeteringRequest (outcomes attempt) with
      | .ok _ =>
          { result := .ok (), attempts := attempt + 1, sleepsMs := sleeps' }
      | .error err =>
          if IsValidationError err then
            { result := .error err, attempts := attempt + 1, sleepsMs := sleeps' }
          else
            sendMeteringLoop outcomes (attempt + 1) backoff' (some err) sleeps' remaining

/-- Embedding of `sendMetering` (src/revenium/metering.go:57-87):
`maxRetries = 3`, `initialBackoff = 100ms`. -/
def sendMetering (outcomes : Nat → AttemptOutcome) : SendTrace :=
  sendMeteringLoop outcomes 0 100 none [] 3

/-! Specification-side view of the delivery policy, written from the
claim's words: first attempt immediate; a 2xx stops with success; a 4xx
stops with a validation error; anything else is retried after sleeping
100ms, then 200ms; after three failed attempts the call reports a
metering error wrapping the last underlying failure. -/

/-- What the claim says one attempt outcome means. -/
inductive StepKind where
  | ok | fatal | retry
deriving DecidableEq

/-- Claim-side classification of one attempt: 2xx succeeds, 4xx is fatal
(validation), everything else (other statuses, transport failures) is
retryable. -/
def specStepKind : AttemptOutcome → StepKind
  | .transportFailure _ => .retry
  | .status c _ =>
      if 200 ≤ c ∧ c < 300 then .ok
      else if 400 ≤ c ∧ c < 500 then .fatal
      else .retry

/-- Claim-side view of a delivery result. -/
inductive ResultView where
  | success
  | validationStop
  | exhausted (last : Option GoError)

/-- View of a trace's result: success, a validation-kind stop, or a
metering-kind failure together with the cause it wraps. -/
def traceResultView (t : SendTrace) : ResultView :=
  match t.result with
  | .ok _ => .success
  | .error (.rev .validation _ _) => .validationStop
  | .error (.rev .metering _ cause) => .exhausted cause
  | .error _ => .exhausted none

/-- The error a failing attempt produces (claim: "the last underlying
failure"). -/
def requestErrorOf (o : AttemptOutcome) : GoError :=
  match sendMeteringRequest o with
  | .error e => e
  | .ok _ => .plain ""

/-- The delivery behaviour the claim describes, as (result view, number
of attempts, sleeps). -/
def specDelivery (outcomes : Nat → AttemptOutcome) :
    ResultView × Nat × List Nat :=
  match specStepKind (outcomes 0) with
  | .ok => (.success, 1, [])
  | .fatal => (.validationStop, 1, [])
  | .retry =>
    match specStepKind (outcomes 1) with
    | .ok => (.success, 2, [100])
    | .fatal => (.validationStop, 2, [100])
    | .retry =>
      match specStepKind (outcomes 2) with
      | .ok => (.success, 3, [100, 200])
      | .fatal => (.validationStop, 3, [100, 200])
      | .retry =>
          (.exhausted (some (requestErrorOf (outcomes 2))), 3, [100, 200])

/-- Each attempt outcome falls in exactly one of the claim's three
classes, and the code's per-attempt classification agrees with it. -/
lemma stepCases (o : AttemptOutcome) :
    (specStepKind o = .ok ∧ sendMeteringRequest o = .ok ()) ∨
    (specStepKind o = .fatal ∧
      ∃ msg, sendMeteringRequest o = .error (.rev .validation msg none)) ∨
    (specStepKind o = .retry ∧
      ∃ e, sendMeteringRequest o = .error e ∧ IsValidationError e = false) := by
  cases o with
  | transportFailure m =>
      right; right
      exact ⟨rfl, _, rfl, rfl⟩
  | status c b =>
      by_cases h1 : 200 ≤ c ∧ c < 300
      · left
        refine ⟨by simp [specStepKind, h1], ?_⟩
        have hc : ¬(c < 200 ∨ 300 ≤ c) := by omega
        simp [sendMeteringRequest, hc]
      · by_cases h2 : 400 ≤ c ∧ c < 500
        · right; left
          refine ⟨by simp [specStepKind, h1, h2], ?_⟩
          have hc : c < 200 ∨ 300 ≤ c := by omega
          refine ⟨"metering API returned " ++ Nat.repr c ++ ": " ++ b, ?_⟩
          simp [sendMeteringRequest, hc, h2, NewValidationError]
        · right; right
          refine ⟨by simp [specStepKind, h1, h2], ?_⟩
          have hc : c < 200 ∨ 300 ≤ c := by omega
          refine ⟨GoError.rev .metering ("metering API error: " ++ Nat.repr c)
              (some (.plain ("status " ++ Nat.repr c ++ ": " ++ b))), ?_, rfl⟩
          simp [sendMeteringRequest, hc, h2, NewMeteringError]

lemma sendMeteringLoop_succ (outcomes : Nat → AttemptOutcome)
    (a b : Nat) (le : Option GoError) (s : List Nat) (r : Nat) :
    sendMeteringLoop outcomes a b le s (r + 1)
      = (let s' := if a > 0 then s ++ [b] else s
         let b' := if a > 0 then b * 2 else b
         match sendMeteringRequest (outcomes a) with
         | .ok _ => { result := .ok (), attempts := a + 1, sleepsMs := s' }
         | .error err =>
             if IsValidationError err then
               { result := .error err, attempts := a + 1, sleepsMs := s' }
             else sendMeteringLoop outcomes (a + 1) b' (some err) s' r) := rfl

/-- C3: the delivery client makes at most 3 attempts (first immediate,
later ones after 100ms then 200ms sleeps); a 2xx stops with success, a
4xx stops at once with a validation-kind error, retryable failures are
retried up to the budget, and exhausting all three attempts yields a
metering-kind error wrapping the last underlying failure — exactly the
behaviour `specDelivery` transcribes from the claim. -/
lemma sendMeteringLoop_budget2 (outcomes : Nat → AttemptOutcome)
    (a b : Nat) (le : Option GoError) (s : List Nat) :
    sendMeteringLoop outcomes a b le s 2
      = sendMeteringLoop outcomes a b le s (1 + 1) := rfl

lemma sendMeteringLoop_budget1 (outcomes : Nat → AttemptOutcome)
    (a b : Nat) (le : Option GoError) (s : List Nat) :
    sendMeteringLoop outcomes a b le s 1
      = sendMeteringLoop outcomes a b le s (0 + 1) := rfl

lemma sendMeteringLoop_budget0 (outcomes : Nat → AttemptOutcome)
    (a b : Nat) (le : Option GoError) (s : List Nat) :
    sendMeteringLoop outcomes a b le s 0
      = { result := .error
            (NewMeteringError "metering failed after 3 retries" le)
          attempts := a
          sleepsMs := s } := rfl

/-- C3: the delivery client makes at most 3 attempts (first immediate,
later ones after 100ms then 200ms sleeps); a 2xx stops with success, a
4xx stops at once with a validation-kind error, retryable failures are
retried up to the budget, and exhausting all three attempts yields a
metering-kind error wrapping the last underlying failure — exactly the
behaviour `specDelivery` transcribes from the claim. -/
theorem c3_sendMetering_retry_policy (outcomes : Nat → AttemptOutcome) :
    (traceResultView (sendMetering outcomes),
      (sendMetering outcomes).attempts,
      (sendMetering outcomes).sleepsMs) = specDelivery outcomes ∧
    (sendMetering outcomes).attempts ≤ 3 := by
  have h3 : sendMetering outcomes
      = sendMeteringLoop outcomes 0 100 none [] (2 + 1) := rfl
  rw [h3, sendMeteringLoop_succ]
  rcases stepCases (outcomes 0) with ⟨hk0, hr0⟩ | ⟨hk0, m0, hr0⟩ | ⟨hk0, e0, hr0, hv0⟩
  · simp only [hr0]
    simp [specDelivery, hk0, traceResultView]
  · simp only [hr0]
    simp [specDelivery, hk0, traceResultView, IsValidationError]
  · simp only [hr0, hv0]
    simp only [gt_iff_lt, Nat.lt_irrefl, ite_false, Bool.false_eq_true,
      if_false, Nat.zero_add]
    rw [sendMeteringLoop_budget2, sendMeteringLoop_succ]
    rcases stepCases (outcomes 1) with ⟨hk1, hr1⟩ | ⟨hk1, m1, hr1⟩ | ⟨hk1, e1, hr1, hv1⟩
    · simp only [hr1]
      simp [specDelivery, hk0, hk1, traceResultView]
    · simp only [hr1]
      simp [specDelivery, hk0, hk1, traceResultView, IsValidationError]
    · simp only [hr1, hv1]
      simp only [gt_iff_lt, Nat.lt_irrefl, ite_true, if_true,
        Nat.zero_lt_one, List.nil_append, Nat.reduceAdd, Nat.reduceMul]
      rw [sendMeteringLoop_budget1, sendMeteringLoop_succ]
      rcases stepCases (outcomes 2) with ⟨hk2, hr2⟩ | ⟨hk2, m2, hr2⟩ | ⟨hk2, e2, hr2, hv2⟩
      · simp only [hr2]
        simp [specDelivery, hk0, hk1, hk2, traceResultView]
      · simp only [hr2]
        simp [specDelivery, hk0, hk1, hk2, traceResultView, IsValidationError]
      · simp only [hr2, hv2]
        simp only [gt_iff_lt, ite_true, if_true, Nat.reduceAdd, Nat.reduceMul]
        rw [sendMeteringLoop_budget0]
        simp [specDelivery, hk0, hk1, hk2, traceResultView,
          NewMeteringError, requestErrorOf, hr2]

/-! ## Frame lemmas for the builder pipeline stages -/

/-- The billing-critical and header fields a payload carries, as one
tuple: everything the metadata-projection and prompt-capture stages must
leave untouched. -/
def billingView (p : MeteringPayload) :=
  (p.stopReason, p.costType, p.operationType, p.model, p.provider,
   p.modelSource, p.transactionID, p.requestTime, p.responseTime,
   p.requestDuration, p.middlewareSource, p.actualImageCount,
   p.requestedImageCount, p.durationSeconds, p.requestedDurationSeconds,
   p.attributes)

lemma applyMetadataFields_billingView (md : Option GoMap)
    (p : MeteringPayload) :
    billingView (applyMetadataFields md p) = billingView p := by
  cases md <;> rfl

lemma applyImagePromptCapture_billingView (cap : Bool) (prompt : String)
    (urls : List String) (p : MeteringPayload) :
    billingView (applyImagePromptCapture cap prompt urls p) = billingView p := by
  unfold applyImagePromptCapture
  split <;> rfl

lemma applyVideoPromptCapture_billingView (cap : Bool) (prompt url : String)
    (p : MeteringPayload) :
    billingView (applyVideoPromptCapture cap prompt url p) = billingView p := by
  unfold applyVideoPromptCapture
  split <;> rfl

/-- The billing view of an image payload, computed in closed form. -/
lemma buildImage_billingView (model : String)
    (imageResp : Option FalImageResponse) (metadata : Option GoMap)
    (duration requestTime : Int) (capturePrompts : Bool) (prompt : String)
    (outputURLs : List String) (n1 n2 : Nat) :
    billingView (buildImageMeteringPayload model imageResp metadata duration
        requestTime capturePrompts prompt outputURLs n1 n2)
      = ("END", "AI", operationTypeImage, normalizeModelName model, "fal",
         "FAL", generateTransactionID n1 n2, requestTime,
         requestTime + duration, durationMilliseconds duration,
         GetMiddlewareSource,
         imageResp.map (fun resp => (resp.images.length : Int)),
         imageResp.map (fun resp => (resp.images.length : Int)),
         none, none,
         imageResp.bind (fun resp =>
           match resp.images with
           | [] => none
           | img :: _ => some (imageAttrs img))) := by
  unfold buildImageMeteringPayload
  rw [applyImagePromptCapture_billingView, applyMetadataFields_billingView]
  cases imageResp with
  | none => rfl
  | some resp => cases resp.images <;> rfl

/-- The billing view of a video payload, computed in closed form. -/
lemma buildVideo_billingView (model : String)
    (videoResp : Option FalVideoResponse) (metadata : Option GoMap)
    (duration requestTime : Int) (requestedDuration : String)
    (capturePrompts : Bool) (prompt outputURL : String) (n1 n2 : Nat) :
    billingView (buildVideoMeteringPayload model videoResp metadata duration
        requestTime requestedDuration capturePrompts prompt outputURL n1 n2)
      = ("END", "AI", operationTypeVideo, normalizeModelName model, "fal",
         "FAL", generateTransactionID n1 n2, requestTime,
         requestTime + duration, durationMilliseconds duration,
         GetMiddlewareSource, none, none,
         (videoDurationFields videoResp (videoReqDurSeconds requestedDuration)).1,
         (videoDurationFields videoResp (videoReqDurSeconds requestedDuration)).2,
         videoResp.bind (fun resp =>
           if resp.video.width > 0 || resp.video.height > 0 then
             some (videoAttrs resp.video)
           else none)) := by
  unfold buildVideoMeteringPayload
  rw [applyVideoPromptCapture_billingView, applyMetadataFields_billingView]
  cases videoResp with
  | none => rfl
  | some resp =>
    by_cases h : resp.video.width > 0 || resp.video.height > 0
    · have hp : 0 < resp.video.width ∨ 0 < resp.video.height := by simpa using h
      simp [h, hp, billingView]
    · have hp : ¬(0 < resp.video.width ∨ 0 < resp.video.height) := by
        simpa using h
      simp [h, hp, billingView]

/-! ## C8: header invariants of every built payload -/

lemma generateTransactionID_ne_empty (n1 n2 : Nat) :
    generateTransactionID n1 n2 ≠ "" := by
  intro h
  have hd := congrArg String.data h
  simp only [generateTransactionID, String.data_append] at hd
  simp at hd

lemma normalizeModelName_ne_empty (model : String) :
    normalizeModelName model ≠ "" := by
  unfold normalizeModelName
  by_cases hp : goHasPrefix model falPrefix
  · rw [if_pos hp]
    intro h
    rw [h] at hp
    exact absurd hp (by decide)
  · rw [if_neg hp]
    intro h
    have hd := congrArg String.data h
    simp only [String.data_append] at hd
    have : (String.data falPrefix ++ model.data).length = 0 := by rw [hd]; rfl
    simp [ falPrefix] at this

/-- C8: every payload either builder produces has a non-empty transaction
id, operation kind and model, and a response timestamp no earlier than the
request timestamp (the elapsed duration measured by the orchestrator is
non-negative). -/
theorem c8_payload_header_invariants (model : String)
    (imageResp : Option FalImageResponse) (videoResp : Option FalVideoResponse)
    (metadata : Option GoMap) (duration requestTime : Int)
    (requestedDuration : String) (capturePrompts : Bool)
    (prompt : String) (outputURLs : List String) (outputURL : String)
    (n1 n2 : Nat) (hdur : 0 ≤ duration) :
    (let p := buildImageMeteringPayload model imageResp metadata duration
        requestTime capturePrompts prompt outputURLs n1 n2
     p.transactionID ≠ "" ∧ p.operationType ≠ "" ∧ p.model ≠ "" ∧
       p.requestTime ≤ p.responseTime) ∧
    (let q := buildVideoMeteringPayload model videoResp metadata duration
        requestTime requestedDuration capturePrompts prompt outputURL n1 n2
     q.transactionID ≠ "" ∧ q.operationType ≠ "" ∧ q.model ≠ "" ∧
       q.requestTime ≤ q.responseTime) := by
  constructor
  · have h := buildImage_billingView model imageResp metadata duration
      requestTime capturePrompts prompt outputURLs n1 n2
    simp only [billingView, Prod.mk.injEq] at h
    obtain ⟨-, -, hot, hm, -, -, htx, hrq, hrs, -⟩ := h
    refine ⟨?_, ?_, ?_, ?_⟩
    · rw [htx]; exact generateTransactionID_ne_empty n1 n2
    · rw [hot]; decide
    · rw [hm]; exact normalizeModelName_ne_empty model
    · rw [hrq, hrs]; omega
  · have h := buildVideo_billingView model videoResp metadata duration
      requestTime requestedDuration capturePrompts prompt outputURL n1 n2
    simp only [billingView, Prod.mk.injEq] at h
    obtain ⟨-, -, hot, hm, -, -, htx, hrq, hrs, -⟩ := h
    refine ⟨?_, ?_, ?_, ?_⟩
    · rw [htx]; exact generateTransactionID_ne_empty n1 n2
    · rw [hot]; decide
    · rw [hm]; exact normalizeModelName_ne_empty model
    · rw [hrq, hrs]; omega

/-- C8 witness: a concrete successful call (zero elapsed duration). -/
theorem c8_payload_header_invariants_witness :
    (0 : Int) ≤ 0 ∧
    ((let p := buildImageMeteringPayload "flux/dev" none none 0 0 false "" [] 5 5
      p.transactionID ≠ "" ∧ p.operationType ≠ "" ∧ p.model ≠ "" ∧
        p.requestTime ≤ p.responseTime) ∧
     (let q := buildVideoMeteringPayload "flux/dev" none none 0 0 "5"
        false "" "" 5 5
      q.transactionID ≠ "" ∧ q.operationType ≠ "" ∧ q.model ≠ "" ∧
        q.requestTime ≤ q.responseTime)) :=
  ⟨by decide,
    c8_payload_header_invariants "flux/dev" none none none 0 0 "5" false ""
      [] "" 5 5 (by decide)⟩

/-! ## C10: builders are total on a nil response pointer -/

/-- C10: with a `nil` response pointer both builders still produce a
record (the Go code guards every dereference behind `!= nil`, mirrored
here by the `Option` match): all header fields are set, the image-count
fields and the attributes map stay absent, and the video duration fields
are derived solely from the requested-duration string. -/
theorem c10_nil_response_total (model : String) (metadata : Option GoMap)
    (duration requestTime : Int) (requestedDuration : String)
    (capturePrompts : Bool) (prompt : String) (outputURLs : List String)
    (outputURL : String) (n1 n2 : Nat) :
    (let p := buildImageMeteringPayload model none metadata duration
        requestTime capturePrompts prompt outputURLs n1 n2
     p.stopReason = "END" ∧ p.costType = "AI" ∧
       p.operationType = operationTypeImage ∧
       p.model = normalizeModelName model ∧ p.provider = "fal" ∧
       p.modelSource = "FAL" ∧
       p.transactionID = generateTransactionID n1 n2 ∧
       p.requestTime = requestTime ∧
       p.responseTime = requestTime + duration ∧
       p.requestDuration = durationMilliseconds duration ∧
       p.middlewareSource = GetMiddlewareSource ∧
       p.actualImageCount = none ∧ p.requestedImageCount = none ∧
       p.attributes = none) ∧
    (let q := buildVideoMeteringPayload model none metadata duration
        requestTime requestedDuration capturePrompts prompt outputURL n1 n2
     q.stopReason = "END" ∧ q.costType = "AI" ∧
       q.operationType = operationTypeVideo ∧
       q.model = normalizeModelName model ∧ q.provider = "fal" ∧
       q.modelSource = "FAL" ∧
       q.transactionID = generateTransactionID n1 n2 ∧
       q.requestTime = requestTime ∧
       q.responseTime = requestTime + duration ∧
       q.requestDuration = durationMilliseconds duration ∧
       q.middlewareSource = GetMiddlewareSource ∧
       q.attributes = none ∧
       q.durationSeconds
         = (videoDurationFields none (videoReqDurSeconds requestedDuration)).1 ∧
       q.requestedDurationSeconds
         = (videoDurationFields none (videoReqDurSeconds requestedDuration)).2) := by
  constructor
  · have h := buildImage_billingView model none metadata duration
      requestTime capturePrompts prompt outputURLs n1 n2
    simp only [billingView, Prod.mk.injEq, Option.map_none, Option.bind] at h
    obtain ⟨h1, h2, h3, h4, h5, h6, h7, h8, h9, h10, h11, h12, h13, -, -, h16⟩ := h
    exact ⟨h1, h2, h3, h4, h5, h6, h7, h8, h9, h10, h11, h12, h13, h16⟩
  · have h := buildVideo_billingView model none metadata duration
      requestTime requestedDuration capturePrompts prompt outputURL n1 n2
    simp only [billingView, Prod.mk.injEq, Option.bind] at h
    obtain ⟨h1, h2, h3, h4, h5, h6, h7, h8, h9, h10, h11, h12, -, h14, h15, h16⟩ := h
    exact ⟨h1, h2, h3, h4, h5, h6, h7, h8, h9, h10, h11, h16, h14, h15⟩

/-! ## C2: video duration fallback chain -/

/-- The claim's "requested duration", read off the requested-duration
string: the parsed value when the (trimmed) string parses to a positive
number, absent otherwise. -/
def specRequestedPositive (requestedDuration : String) : Option ℚ :=
  if requestedDuration = "" then none
  else
    match goParseFloat (goTrimSpace requestedDuration) with
    | some q => if q > 0 then some q else none
    | none => none

/-- The claim's "actual duration": the response's duration when the
response is present and positive. -/
def specActualDuration : Option FalVideoResponse → Option ℚ
  | some resp => if resp.video.duration > 0 then some resp.video.duration else none
  | none => none

lemma videoReqDur_pos_eq (requestedDuration : String) :
    (if videoReqDurSeconds requestedDuration > 0
      then some (videoReqDurSeconds requestedDuration) else none)
      = specRequestedPositive requestedDuration := by
  unfold videoReqDurSeconds specRequestedPositive
  by_cases he : requestedDuration = ""
  · simp [he]
  · simp only [he, ite_false, if_neg, ne_eq, not_false_iff, ite_true, if_pos]
    cases goParseFloat (goTrimSpace requestedDuration) with
    | none => simp
    | some q => simp

/-- The value `7.2` (= 36/5) of the claim's concrete examples, given as a
normalized rational so that each concrete case evaluates inside the
kernel. -/
def exDuration72 : ℚ := ⟨36, 5, by norm_num, by norm_num⟩

/-- C2 (amended): `durationSeconds` is the actual response duration when
present and positive, else the requested value when that parses to a
positive number, else absent; `requestedDurationSeconds` prefers the
positively-parsed requested value and falls back to the actual duration;
the three concrete cases of the claim come out exactly as stated. -/
theorem c2_video_duration_fallback (model : String)
    (videoResp : Option FalVideoResponse) (metadata : Option GoMap)
    (duration requestTime : Int) (requestedDuration : String)
    (capturePrompts : Bool) (prompt outputURL : String) (n1 n2 : Nat) :
    ((buildVideoMeteringPayload model videoResp metadata duration requestTime
        requestedDuration capturePrompts prompt outputURL n1 n2).durationSeconds
      = (specActualDuration videoResp
          <|> specRequestedPositive requestedDuration) ∧
     (buildVideoMeteringPayload model videoResp metadata duration requestTime
        requestedDuration capturePrompts prompt outputURL n1 n2).requestedDurationSeconds
      = (specRequestedPositive requestedDuration
          <|> specActualDuration videoResp)) ∧
    ((buildVideoMeteringPayload "m" (some { video := { duration := exDuration72 } })
        none 0 0 "5" false "" "" 0 0).durationSeconds = some exDuration72 ∧
     (buildVideoMeteringPayload "m" (some { video := { duration := exDuration72 } })
        none 0 0 "5" false "" "" 0 0).requestedDurationSeconds = some 5) ∧
    ((buildVideoMeteringPayload "m" (some { video := { duration := exDuration72 } })
        none 0 0 "" false "" "" 0 0).durationSeconds = some exDuration72 ∧
     (buildVideoMeteringPayload "m" (some { video := { duration := exDuration72 } })
        none 0 0 "" false "" "" 0 0).requestedDurationSeconds = some exDuration72) ∧
    ((buildVideoMeteringPayload "m" none none 0 0 "10" false "" "" 0 0).durationSeconds
        = some 10 ∧
     (buildVideoMeteringPayload "m" none none 0 0 "10" false "" "" 0 0).requestedDurationSeconds
        = some 10) := by
  refine ⟨?_, by constructor <;> decide, by constructor <;> decide,
    by constructor <;> decide⟩
  have h := buildVideo_billingView model videoResp metadata duration
    requestTime requestedDuration capturePrompts prompt outputURL n1 n2
  simp only [billingView, Prod.mk.injEq] at h
  obtain ⟨-, -, -, -, -, -, -, -, -, -, -, -, -, hds, hrds, -⟩ := h
  rw [hds, hrds]
  unfold videoDurationFields
  rw [← videoReqDur_pos_eq requestedDuration]
  set r := videoReqDurSeconds requestedDuration with hr
  cases videoResp with
  | none =>
    by_cases hpos : r > 0 <;> simp [specActualDuration, hpos]
  | some resp =>
    by_cases hact : resp.video.duration > 0
    · by_cases hpos : r > 0 <;> simp [specActualDuration, hact, hpos]
    · by_cases hpos : r > 0 <;> simp [specActualDuration, hact, hpos]

/-- C2 counterexample to the claim as stated: with no actual response and
a requested string `"0"` that parses (to zero), the claim requires both
duration fields to equal the parsed value `0`, but the code leaves both
absent because it only uses a parsed value when it is strictly
positive. -/
theorem c2_video_duration_fallback_counterexample :
    goParseFloat (goTrimSpace "0") = some 0 ∧
    (buildVideoMeteringPayload "m" none none 0 0 "0" false "" "" 0 0).durationSeconds
      = none ∧
    (buildVideoMeteringPayload "m" none none 0 0 "0" false "" "" 0 0).requestedDurationSeconds
      = none := by
  refine ⟨by decide, by decide, by decide⟩

/-- C9 counterexample to the claim as stated: two distinct generation
calls (different models, hence different metering records) whose clock
readings coincide receive the very same transaction id — the id is a
function of the wall clock alone. -/
theorem c9_transactionID_counterexample :
    (buildImageMeteringPayload "flux/dev" none none 0 0 false "" []
        1700000000000000000 1700000000000000000).transactionID
      = (buildImageMeteringPayload "other/model" none none 0 0 false "" []
          1700000000000000000 1700000000000000000).transactionID := rfl

/-! ## Orchestrator (src/revenium/middleware.go:128-186)

The provider call is the collaborator at the boundary: its outcome for
this call is the explicit argument `providerResult`.  Launching the
background metering goroutine is embedded as appending a task descriptor
(carrying exactly the arguments the Go code hands the goroutine) to the
list of dispatched tasks. -/

/-- Struct `FalRequest` (src/revenium/types.go). -/
structure FalRequest where
  prompt : String := ""
  imageSize : String := ""
  numInferenceSteps : Int := 0
  guidanceScale : ℚ := 0
  numImages : Int := 0
  seed : Option Int := none
  enableSafetyChecker : Bool := false
  duration : String := ""
  aspectRatio : String := ""

/-- A dispatched background metering task, with the arguments the
goroutine closure captures. -/
inductive MeteringTask where
  | imageTask (resp : FalImageResponse) (model : String)
      (metadata : Option GoMap) (duration startTime : Int)
  | videoTask (resp : FalVideoResponse) (model : String)
      (metadata : Option GoMap) (duration startTime : Int)
      (requestedDuration : String)

/-- Embedding of `GenerateImage` (src/revenium/middleware.go:128-152):
returns the provider outcome plus the list of metering tasks the call
dispatched. -/
def GenerateImage (providerResult : Except GoError FalImageResponse)
    (model : String) (metadata : Option GoMap) (duration startTime : Int) :
    Except GoError FalImageResponse × List MeteringTask :=
  match providerResult with
  | .error e => (.error e, [])
  | .ok resp => (.ok resp, [.imageTask resp model metadata duration startTime])

/-- Embedding of `GenerateVideo` (src/revenium/middleware.go:155-186),
including the nil-safe capture of the requested duration before the
goroutine is launched. -/
def GenerateVideo (providerResult : Except GoError FalVideoResponse)
    (model : String) (request : Option FalRequest) (metadata : Option GoMap)
    (duration startTime : Int) :
    Except GoError FalVideoResponse × List MeteringTask :=
  match providerResult with
  | .error e => (.error e, [])
  | .ok resp =>
      let requestedDuration :=
        match request with
        | some r => r.duration
        | none => ""
      (.ok resp,
        [.videoTask resp model metadata duration startTime requestedDuration])

/-- C4: a provider error is returned unchanged and dispatches no metering
task; a provider success returns the response and dispatches exactly one
metering task — for both generation entry points. -/
theorem c4_metering_dispatch_per_call :
    (∀ (e : GoError) (model : String) (metadata : Option GoMap)
        (duration startTime : Int),
      GenerateImage (.error e) model metadata duration startTime
        = (.error e, [])) ∧
    (∀ (resp : FalImageResponse) (model : String) (metadata : Option GoMap)
        (duration startTime : Int),
      (GenerateImage (.ok resp) model metadata duration startTime).1
          = .ok resp ∧
        (GenerateImage (.ok resp) model metadata duration startTime).2.length
          = 1) ∧
    (∀ (e : GoError) (model : String) (request : Option FalRequest)
        (metadata : Option GoMap) (duration startTime : Int),
      GenerateVideo (.error e) model request metadata duration startTime
        = (.error e, [])) ∧
    (∀ (resp : FalVideoResponse) (model : String) (request : Option FalRequest)
        (metadata : Option GoMap) (duration startTime : Int),
      (GenerateVideo (.ok resp) model request metadata duration startTime).1
          = .ok resp ∧
        (GenerateVideo (.ok resp) model request metadata duration
            startTime).2.length = 1) :=
  ⟨fun _ _ _ _ _ => rfl,
   fun _ _ _ _ _ => ⟨rfl, rfl⟩,
   fun _ _ _ _ _ _ => rfl,
   fun _ _ _ _ _ _ => ⟨rfl, rfl⟩⟩

/-! ## Background-task fault containment (src/revenium/middleware.go:144-201)

`defer`/`recover` are deterministic control flow, embedded explicitly: a
computation either returns normally or panics with a value
(`PanicOr`).  The goroutine body is `defer r.wg.Done();
r.sendImageMetering(...)`, and `sendImageMetering` opens with
`defer func() { if rec := recover(); rec != nil { Error(...) } }()`, so
whatever the metering work does is an abstract behaviour `body`. -/

/-- Outcome of a Go computation: normal return or panic. -/
inductive PanicOr (α : Type) where
  | ok (a : α)
  | panicked (msg : String)

/-- The deferred `recover`-and-log wrapper at the top of
`sendImageMetering`/`sendVideoMetering`: a panic is caught (the function
returns normally) and logged; a normal return passes through.  Returns
(outcome after the deferred recover, whether a panic was logged). -/
def recoverLogged : PanicOr Unit → PanicOr Unit × Bool
  | .ok _ => (.ok (), false)
  | .panicked _ => (.ok (), true)

/-- Semantics of `defer r.wg.Done()` in the goroutine: the finalizer runs whether the
wrapped call returns normally or panics.  Returns (escaping outcome,
whether the finalizer ran). -/
def deferredDone : PanicOr Unit → PanicOr Unit × Bool
  | .ok a => (.ok a, true)
  | .panicked m => (.panicked m, true)

/-- Observable result of one background metering task. -/
structure MeteringTaskRun where
  escaped : PanicOr Unit
  wgDecremented : Bool
  panicLogged : Bool

/-- The dispatched goroutine around an abstract metering body. -/
def runMeteringTask (body : PanicOr Unit) : MeteringTaskRun :=
  let inner := recoverLogged body
  let outer := deferredDone inner.1
  { escaped := outer.1, wgDecremented := outer.2, panicLogged := inner.2 }

/-- C5: whatever the metering body does — including panicking — nothing
escapes the background task, the in-flight counter decrement still runs,
and a panic is logged inside the task. -/
theorem c5_panic_contained (body : PanicOr Unit) :
    (runMeteringTask body).escaped = .ok () ∧
    (runMeteringTask body).wgDecremented = true ∧
    (∀ m, body = .panicked m → (runMeteringTask body).panicLogged = true) := by
  cases body with
  | ok a => exact ⟨rfl, rfl, fun m h => nomatch h⟩
  | panicked m => exact ⟨rfl, rfl, fun _ _ => rfl⟩

/-- C5 witness: a concrete panicking body. -/
theorem c5_panic_contained_witness :
    (runMeteringTask (.panicked "boom")).escaped = .ok () ∧
    (runMeteringTask (.panicked "boom")).wgDecremented = true ∧
    (runMeteringTask (.panicked "boom")).panicLogged = true :=
  ⟨(c5_panic_contained (.panicked "boom")).1,
   (c5_panic_contained (.panicked "boom")).2.1,
   (c5_panic_contained (.panicked "boom")).2.2 "boom" rfl⟩

end Revenium
